import Mathlib

/-!
Shallow embedding of pkg/log/log.go: a process-wide, context-propagated
logging facility with file-backed output, rotation, and a periodic background
upload task.  Go package-level variables become fields of an explicit state
record, os-level file operations are modelled with an explicit open-handle
table plus an operation trace, a Go panic becomes an Except.error result, and
the upload goroutine becomes a step function over a trace of loop events.
-/

namespace TraefikLog

/-- logrus.Fields and the accumulated field set of a logrus entry, modelled as
the sequence of key-value assignments performed on the map; a later
assignment to the same key overrides an earlier one, which is the observable
behaviour of the Go map writes done by the option returned by Str and by the
merge inside WithFields. -/
abbrev Fields := List (String × String)

/-- A map write: fields at key becomes value. -/
def setField (f : Fields) (key value : String) : Fields :=
  f ++ [(key, value)]

/-- A map read: the last assignment to the key wins. -/
def getField (f : Fields) (key : String) : Option String :=
  f.foldl (fun acc p => if p.1 = key then some p.2 else acc) none

/-- A logger handle (the Logger interface of the package, backed by logrus),
identified by its accumulated structured fields. -/
structure Logger where
  fields : Fields
deriving DecidableEq, Repr

/-- logrus FieldLogger.WithFields: a derived entry whose data is the base
data with the new fields applied on top (override on key collision); the base
logger value is not mutated. -/
def Logger.withFields (l : Logger) (f : Fields) : Logger :=
  { fields := l.fields ++ f }

/-- The unexported contextKey type of the package; loggerKey is its only
value. -/
inductive ContextKey
  | loggerKey
deriving DecidableEq, Repr

/-- context.Context as used by the package: an immutable chain of key-value
bindings, innermost first; context.WithValue prepends a binding and Value
returns the innermost one.  A nil Go context is modelled as the none case of
Option Ctx at the call sites. -/
abbrev Ctx := List (ContextKey × Logger)

/-- context.WithValue: a new child context with one more binding; the parent
is unchanged. -/
def ctxWithValue (ctx : Ctx) (k : ContextKey) (l : Logger) : Ctx :=
  (k, l) :: ctx

/-- ctx.Value: the innermost binding for the key, if any. -/
def ctxValue : Ctx → ContextKey → Option Logger
  | [], _ => none
  | (k2, l) :: rest, k => if k2 = k then some l else ctxValue rest k

/-- context.Background(): a non-nil context with no bindings. -/
def Background : Ctx := []

/-- An os.File handle: the id distinguishes handles opened at different
times, the path records where it was opened. -/
structure FileHandle where
  id : Nat
  path : String
deriving DecidableEq, Repr

/-- One os-level file operation, recorded in the trace. -/
inductive FileOp
  | opened (h : FileHandle)
  | closed (h : FileHandle)
deriving DecidableEq, Repr

def FileOp.isClose : FileOp → Bool
  | .closed _ => true
  | .opened _ => false

/-- One line of observable console output: fmt.Println text, or a logging
call at debug level made through a logger handle. -/
inductive ConsoleLine
  | stdout (msg : String)
  | debug (msg : String)
deriving DecidableEq, Repr

/-- The global logrus output sink: standard output alone, or the MultiWriter
of standard output and the log file installed by SetOutput. -/
inductive Sink
  | stdout
  | multi (h : FileHandle)
deriving DecidableEq, Repr

/-- The relevant operating-system state: a fresh-id counter, the table of
currently open handles, and the environment-determined outcome of
os.OpenFile per path (none means the open succeeds). -/
structure OsState where
  nextId : Nat
  openHandles : List FileHandle
  openFails : String → Option String

/-- The package-level state: the three package variables mainLogger,
logFilePath and logFile, the global sink, the os state, the trace of file
operations, and the console output stream. -/
structure PkgState where
  mainLogger : Logger
  logFilePath : String
  logFile : Option FileHandle
  sink : Sink
  os : OsState
  trace : List FileOp
  output : List ConsoleLine

/-- os.OpenFile in append-create mode: fails according to the environment,
otherwise allocates a fresh handle, registers it open, and records the
operation. -/
def osOpenFile (s : PkgState) (path : String) :
    Except String FileHandle × PkgState :=
  match s.os.openFails path with
  | some e => (.error e, s)
  | none =>
    let h : FileHandle := { id := s.os.nextId, path := path }
    (.ok h,
      { s with
        os := { s.os with
                nextId := s.os.nextId + 1,
                openHandles := h :: s.os.openHandles },
        trace := s.trace ++ [FileOp.opened h] })

/-- File.Close: succeeds and deregisters the handle when it is open, errors
when it was already closed. -/
def osClose (s : PkgState) (h : FileHandle) : Except String Unit × PkgState :=
  if h ∈ s.os.openHandles then
    (.ok (),
      { s with
        os := { s.os with openHandles := s.os.openHandles.erase h },
        trace := s.trace ++ [FileOp.closed h] })
  else
    (.error ("file already closed"), s)

/-- A logging call at debug level through a logger handle, appended to the
console output stream. -/
def Logger.debugLog (_l : Logger) (s : PkgState) (msg : String) : PkgState :=
  { s with output := s.output ++ [ConsoleLine.debug msg] }

/-- SetOutput: installs the MultiWriter of standard output and the given
file as the global sink. -/
def SetOutput (s : PkgState) (h : FileHandle) : PkgState :=
  { s with sink := Sink.multi h }

/-- The field option returned by Str: it assigns value to key in the fields
map. -/
def Str (key value : String) : Fields → Fields :=
  fun fields => setField fields key value

/-- FromContext: panics (modelled as an error result) on the nil context;
otherwise returns the logger bound under loggerKey, falling back to the
package variable mainLogger when the binding is absent. -/
def FromContext (s : PkgState) (ctx : Option Ctx) : Except String Logger :=
  match ctx with
  | none => .error ("nil context")
  | some c =>
    match ctxValue c ContextKey.loggerKey with
    | some logger => .ok logger
    | none => .ok s.mainLogger

/-- WithoutContext: the package variable mainLogger directly. -/
def WithoutContext (s : PkgState) : Logger :=
  s.mainLogger

/-- With: resolves the logger of ctx through FromContext (hence panics on the
nil context), applies the field options in order to an initially empty fields
map, derives a logger with those fields, and returns a new context with the
derived logger bound.  It writes no package state, so the state component is
returned unchanged. -/
def With (s : PkgState) (ctx : Option Ctx) (opts : List (Fields → Fields)) :
    Except String Ctx × PkgState :=
  match FromContext s ctx, ctx with
  | .error e, _ => (.error e, s)
  | .ok logger, some c =>
    let fields := opts.foldl (fun fs opt => opt fs) []
    let logger2 := logger.withFields fields
    (.ok (ctxWithValue c ContextKey.loggerKey logger2), s)
  | .ok _, none => (.error ("nil context"), s)

/-- OpenFile: stores the path into logFilePath first, then opens the file; on
failure the error is returned with logFile assigned the nil result of
os.OpenFile, on success the handle is stored and the sink reconfigured. -/
def OpenFile (path : String) (s : PkgState) : Except String Unit × PkgState :=
  let s1 := { s with logFilePath := path }
  match osOpenFile s1 s1.logFilePath with
  | (.error e, s2) => (.error e, { s2 with logFile := none })
  | (.ok h, s2) => (.ok (), SetOutput { s2 with logFile := some h } h)

/-- CloseFile: resets the sink to standard output, then closes the current
handle if one is stored (the logFile variable itself is not cleared). -/
def CloseFile (s : PkgState) : Except String Unit × PkgState :=
  let s1 := { s with sink := Sink.stdout }
  match s1.logFile with
  | some h => osClose s1 h
  | none => (.ok (), s1)

/-- The debug line emitted by RotateFile when the log is not file backed. -/
def rotateDebugMsg : String :=
  "Traefik log is not writing to a file, ignoring rotate request"

/-- RotateFile: resolves a logger from the background context; when neither a
handle nor a path was ever configured it only logs a debug line; otherwise it
registers a deferred close of the current handle (running after the reopen,
its error ignored), reopens the stored path, and wraps an open error. -/
def RotateFile (s : PkgState) : Except String Unit × PkgState :=
  match FromContext s (some Background) with
  | .error e => (.error e, s)
  | .ok logger =>
    if s.logFile = none ∧ s.logFilePath = "" then
      (.ok (), logger.debugLog s rotateDebugMsg)
    else
      let old := s.logFile
      let r := OpenFile s.logFilePath s
      let s2 :=
        match old with
        | some h => (osClose r.2 h).2
        | none => r.2
      match r.1 with
      | .error e => (.error ("error opening log file: " ++ e), s2)
      | .ok _ => (.ok (), s2)

/-- The console diagnostic printed by UploadLogs when the environment
variable or the path is missing. -/
def uploadDiag : String :=
  "VOLT_ENVIRONMENT is not set or the log file path is not set. Not uploading logs"

/-- The process environment as read by UploadLogs: the result of looking up
VOLT_ENVIRONMENT, and the result of os.Hostname. -/
structure GoEnv where
  voltEnvironment : Option String
  hostname : Except String String

/-- os.Hostname with the fallback of UploadLogs: the literal unknown when the
lookup fails. -/
def hostnameOrUnknown (env : GoEnv) : String :=
  match env.hostname with
  | .ok h => h
  | .error _ => "unknown"

/-- The background upload goroutine as started by UploadLogs, with its fixed
bucket and key.  quitSignals counts the receives from the quit channel that
can ever complete: quit is a local variable of UploadLogs captured only by
the goroutine itself, it is never returned to the caller, and the program
contains no send on it and no close of it, so for a task started by
UploadLogs this count is zero. -/
structure BgTask where
  bucket : String
  key : String
  quitSignals : Nat
deriving Repr

/-- UploadLogs: stores the path into logFilePath, then checks the environment
variable and the stored path; when either is missing it prints the diagnostic
and starts nothing (its Go signature has no return values, so no error is
signalled); otherwise it computes the fixed bucket and key and starts the
background task.  The started task is returned as the second component; none
means no background activity was started. -/
def UploadLogs (env : GoEnv) (path : String) (s : PkgState) :
    PkgState × Option BgTask :=
  let s1 := { s with logFilePath := path }
  match env.voltEnvironment with
  | none =>
    ({ s1 with output := s1.output ++ [ConsoleLine.stdout uploadDiag] }, none)
  | some environment =>
    if s1.logFilePath = "" then
      ({ s1 with output := s1.output ++ [ConsoleLine.stdout uploadDiag] }, none)
    else
      let bucket := "voltage-" ++ environment ++ "-system"
      let hostname := hostnameOrUnknown env
      let s3path := "traefik-logs/" ++ hostname ++ "/traefik.log"
      (s1, some { bucket := bucket, key := s3path, quitSignals := 0 })

/-- The observable state of the goroutine loop of UploadLogs: whether
ticker.Stop has run, whether the goroutine has returned, the upload attempts
made (bucket and key of each), and the error lines printed. -/
structure LoopState where
  tickerStopped : Bool
  returned : Bool
  attempts : List (String × String)
  printed : List String
deriving DecidableEq, Repr

def initLoop : LoopState :=
  { tickerStopped := false, returned := false, attempts := [], printed := [] }

/-- One event delivered to the select of the goroutine loop: a ticker tick
(with the environment-determined outcomes of the file open and of the
upload), or a receive from the quit channel. -/
inductive LoopEvent
  | tick (openResult : Except String FileHandle) (uploadResult : Except String Unit)
  | quit

def LoopEvent.isQuit : LoopEvent → Bool
  | .quit => true
  | .tick _ _ => false

/-- One iteration of the select loop: a tick opens the log file, printing the
error and skipping the tick on failure, otherwise attempts the upload with
the fixed bucket and key and prints an upload error; a receive from quit
stops the ticker and returns from the goroutine. -/
def loopStep (t : BgTask) (ls : LoopState) (e : LoopEvent) : LoopState :=
  if ls.returned then ls
  else
    match e with
    | .tick openResult uploadResult =>
      match openResult with
      | .error msg => { ls with printed := ls.printed ++ [msg] }
      | .ok _ =>
        let ls2 := { ls with attempts := ls.attempts ++ [(t.bucket, t.key)] }
        match uploadResult with
        | .error msg => { ls2 with printed := ls2.printed ++ [msg] }
        | .ok _ => ls2
    | .quit => { ls with tickerStopped := true, returned := true }

def loopRun (t : BgTask) (es : List LoopEvent) : LoopState :=
  es.foldl (loopStep t) initLoop

/-- A trace of loop events the runtime can deliver to the goroutine: each
receive from the quit channel needs a matching send or close, of which the
program provides quitSignals many. -/
def admissibleTrace (t : BgTask) (es : List LoopEvent) : Prop :=
  (es.filter LoopEvent.isQuit).length ≤ t.quitSignals

/-- The upload attempts ever made for the outcome of an UploadLogs call: none
means no task was started, so no attempt is ever made. -/
def uploadsOf : Option BgTask → List LoopEvent → List (String × String)
  | none, _ => []
  | some t, es => (loopRun t es).attempts

/-- The package state right after init: the standard logger as mainLogger, no
path, no file, plain standard output, a fresh os with no open handles and
every open succeeding. -/
def initState : PkgState :=
  { mainLogger := { fields := [] },
    logFilePath := "",
    logFile := none,
    sink := Sink.stdout,
    os := { nextId := 0, openHandles := [], openFails := fun _ => none },
    trace := [],
    output := [] }

/-! Helper lemmas shared by the claim theorems. -/

theorem fromContext_some_eq (s : PkgState) (c : Ctx) :
    FromContext s (some c) =
      .ok ((ctxValue c ContextKey.loggerKey).getD s.mainLogger) := by
  cases h2 : ctxValue c ContextKey.loggerKey <;> simp [FromContext, h2]

theorem getField_append_last (f : Fields) (k v : String) :
    getField (f ++ [(k, v)]) k = some v := by
  simp [getField, List.foldl_append]

theorem ctxValue_withValue (c : Ctx) (k : ContextKey) (l : Logger) :
    ctxValue (ctxWithValue c k l) k = some l := by
  simp [ctxValue, ctxWithValue]

theorem loopStep_not_quit (t : BgTask) (ls : LoopState) (e : LoopEvent)
    (he : LoopEvent.isQuit e = false)
    (h1 : ls.tickerStopped = false) (h2 : ls.returned = false) :
    (loopStep t ls e).tickerStopped = false ∧
      (loopStep t ls e).returned = false := by
  cases e with
  | tick openResult uploadResult =>
    cases openResult <;> cases uploadResult <;>
      simp [loopStep, h1, h2]
  | quit => simp [LoopEvent.isQuit] at he

theorem loopFold_no_quit (t : BgTask) (es : List LoopEvent) (ls : LoopState)
    (h : ∀ e ∈ es, LoopEvent.isQuit e = false)
    (h1 : ls.tickerStopped = false) (h2 : ls.returned = false) :
    (es.foldl (loopStep t) ls).tickerStopped = false ∧
      (es.foldl (loopStep t) ls).returned = false := by
  induction es generalizing ls with
  | nil => exact ⟨h1, h2⟩
  | cons e rest ih =>
    have he := h e (List.mem_cons_self e rest)
    have hstep := loopStep_not_quit t ls e he h1 h2
    exact ih (loopStep t ls e) (fun x hx => h x (List.mem_cons_of_mem e hx))
      hstep.1 hstep.2

/-! Claim theorems. -/

/-- C2: for every package state, FromContext on the nil context fails fatally
(the panic with message nil context, modelled as the error result) and yields
no logger at all, so in particular it never silently returns the
process-wide default logger. -/
theorem fromContext_nil_panics (s : PkgState) :
    FromContext s none = .error ("nil context") ∧
    (FromContext s none).toOption = none :=
  ⟨rfl, rfl⟩

/-- C3: for every non-nil context with no logger bound under the reserved
loggerKey, FromContext returns exactly the handle that WithoutContext
returns, the process-wide default logger. -/
theorem fromContext_fallback (s : PkgState) (c : Ctx)
    (h : ctxValue c ContextKey.loggerKey = none) :
    FromContext s (some c) = .ok (WithoutContext s) := by
  rw [fromContext_some_eq, h]
  rfl

/-- Witness for fromContext_fallback: the empty background context in the
initial state has no binding, and FromContext yields the default logger. -/
theorem fromContext_fallback_witness :
    FromContext initState (some Background) = .ok (WithoutContext initState) :=
  fromContext_fallback initState Background rfl

/-- C8: With on a non-nil context returns the package state unchanged and a
new context, namely the given context extended with the derived logger bound
under loggerKey; the derived logger resolves in the new context, and
FromContext on the original context in the state after the call resolves to
the same handle as before the call. -/
theorem with_binds_new_context (s : PkgState) (c : Ctx)
    (opts : List (Fields → Fields)) :
    (With s (some c) opts).2 = s ∧
    (∃ derived : Logger,
      (With s (some c) opts).1 =
        .ok (ctxWithValue c ContextKey.loggerKey derived) ∧
      ctxValue (ctxWithValue c ContextKey.loggerKey derived)
        ContextKey.loggerKey = some derived) ∧
    FromContext (With s (some c) opts).2 (some c) =
      FromContext s (some c) := by
  have h := fromContext_some_eq s c
  refine ⟨?_,
    ⟨((ctxValue c ContextKey.loggerKey).getD s.mainLogger).withFields
        (opts.foldl (fun fs opt => opt fs) []),
      ?_, ctxValue_withValue ..⟩, ?_⟩
  · simp [With, h]
  · simp [With, h]
  · simp [With, h]

/-- C9: field merging is last-write-wins on key collision: for every context,
every prefix of field options and every key with two values, With applied to
the options extended with Str of the key and the first value and then Str of
the key and the second value binds a logger whose field set maps the key to
the second value, so the later option overrides the earlier one. -/
theorem str_last_write_wins (s : PkgState) (c : Ctx)
    (opts : List (Fields → Fields)) (k v1 v2 : String) :
    ∃ derived : Logger,
      (With s (some c) (opts ++ [Str k v1, Str k v2])).1 =
        .ok (ctxWithValue c ContextKey.loggerKey derived) ∧
      getField derived.fields k = some v2 := by
  have h := fromContext_some_eq s c
  refine ⟨((ctxValue c ContextKey.loggerKey).getD s.mainLogger).withFields
    ((opts ++ [Str k v1, Str k v2]).foldl (fun fs opt => opt fs) []), ?_, ?_⟩
  · simp [With, h]
  · show getField (((ctxValue c ContextKey.loggerKey).getD s.mainLogger).fields
      ++ (opts ++ [Str k v1, Str k v2]).foldl (fun fs opt => opt fs) []) k
        = some v2
    rw [List.foldl_append]
    show getField (_ ++ setField (setField _ k v1) k v2) k = some v2
    rw [setField, setField, ← List.append_assoc, ← List.append_assoc]
    exact getField_append_last _ k v2

/-- C4: when the environment variable VOLT_ENVIRONMENT is absent or the given
path is empty, UploadLogs prints the console diagnostic and starts no
background task, so no upload attempt is ever made; no error is returned or
signalled (its result carries no error component), and the only state changes
are the stored path and the printed line. -/
theorem uploadLogs_noop (env : GoEnv) (path : String) (s : PkgState)
    (h : env.voltEnvironment = none ∨ path = "") :
    (UploadLogs env path s).2 = none ∧
    (UploadLogs env path s).1 =
      { s with logFilePath := path,
               output := s.output ++ [ConsoleLine.stdout uploadDiag] } ∧
    ∀ es : List LoopEvent, uploadsOf (UploadLogs env path s).2 es = [] := by
  cases h with
  | inl henv =>
    refine ⟨?_, ?_, ?_⟩ <;> simp [UploadLogs, henv, uploadsOf]
  | inr hpath =>
    cases henv : env.voltEnvironment with
    | none =>
      refine ⟨?_, ?_, ?_⟩ <;> simp [UploadLogs, henv, uploadsOf]
    | some e =>
      refine ⟨?_, ?_, ?_⟩ <;> simp [UploadLogs, henv, hpath, uploadsOf]

/-- Witness for uploadLogs_noop: the environment variable is absent and the
path non-empty; no task is started, the diagnostic is printed, and no upload
is ever attempted. -/
theorem uploadLogs_noop_witness :
    (UploadLogs { voltEnvironment := none, hostname := .ok ("node-1") }
        ("/var/log/traefik.log") initState).2 = none ∧
    (UploadLogs { voltEnvironment := none, hostname := .ok ("node-1") }
        ("/var/log/traefik.log") initState).1 =
      { initState with logFilePath := "/var/log/traefik.log",
                       output := initState.output ++ [ConsoleLine.stdout uploadDiag] } ∧
    ∀ es : List LoopEvent,
      uploadsOf (UploadLogs { voltEnvironment := none, hostname := .ok ("node-1") }
        ("/var/log/traefik.log") initState).2 es = [] :=
  uploadLogs_noop { voltEnvironment := none, hostname := .ok ("node-1") }
    ("/var/log/traefik.log") initState (Or.inl rfl)

/-- C5: when os.OpenFile fails for the given path, OpenFile returns that
error and leaves the state partially updated: the package-level path is set
to the given path even on failure, and the package state holds no live file
handle afterwards (logFile is the nil result of the failed open). -/
theorem openFile_failure (p e : String) (s : PkgState)
    (h : s.os.openFails p = some e) :
    (OpenFile p s).1 = .error e ∧
    (OpenFile p s).2.logFilePath = p ∧
    (OpenFile p s).2.logFile = none := by
  refine ⟨?_, ?_, ?_⟩ <;> simp [OpenFile, osOpenFile, h]

/-- A state whose operating system refuses every open with a permission
error. -/
def failState : PkgState :=
  { initState with
    os := { nextId := 0, openHandles := [],
            openFails := fun _ => some ("permission denied") } }

/-- Witness for openFile_failure: opening any path in failState fails with
the permission error, yet the path is stored and no handle is held. -/
theorem openFile_failure_witness :
    (OpenFile ("/var/log/traefik.log") failState).1 = .error ("permission denied") ∧
    (OpenFile ("/var/log/traefik.log") failState).2.logFilePath = "/var/log/traefik.log" ∧
    (OpenFile ("/var/log/traefik.log") failState).2.logFile = none :=
  openFile_failure ("/var/log/traefik.log") ("permission denied") failState rfl

/-- C6: RotateFile called when no path was ever configured (no stored path
and no open handle) returns no error and changes nothing except appending the
debug-level line to the output: in particular the file-operation trace is
unchanged (no file I/O) and logFile stays none (no handle created). -/
theorem rotateFile_noop (s : PkgState)
    (h1 : s.logFile = none) (h2 : s.logFilePath = "") :
    (RotateFile s).1 = .ok () ∧
    (RotateFile s).2 =
      { s with output := s.output ++ [ConsoleLine.debug rotateDebugMsg] } := by
  have hb : FromContext s (some Background) = .ok s.mainLogger :=
    fromContext_some_eq s Background
  refine ⟨?_, ?_⟩ <;>
    simp [RotateFile, hb, h1, h2, Logger.debugLog]

/-- Witness for rotateFile_noop: rotating in the initial state succeeds and
only appends the debug line. -/
theorem rotateFile_noop_witness :
    (RotateFile initState).1 = .ok () ∧
    (RotateFile initState).2 =
      { initState with
        output := initState.output ++ [ConsoleLine.debug rotateDebugMsg] } :=
  rotateFile_noop initState rfl rfl

/-- C7: when UploadLogs starts the background task (the environment variable
is present and the path non-empty), the remote destination is computed
deterministically: the bucket is voltage- plus the environment plus -system,
and the key is traefik-logs/ plus the hostname plus /traefik.log, where the
hostname is the process hostname or the literal unknown when the lookup
fails; nothing else enters the computation. -/
theorem uploadLogs_destination (env : GoEnv) (e path : String) (s : PkgState)
    (henv : env.voltEnvironment = some e) (hp : path ≠ "") :
    (UploadLogs env path s).2 =
      some { bucket := "voltage-" ++ e ++ "-system",
             key := "traefik-logs/" ++ hostnameOrUnknown env ++ "/traefik.log",
             quitSignals := 0 } := by
  simp [UploadLogs, henv, hp]

/-- Witness for uploadLogs_destination: environment prod with a failing
hostname lookup yields the prod bucket and the unknown hostname in the fixed
key template. -/
theorem uploadLogs_destination_witness :
    (UploadLogs { voltEnvironment := some ("prod"), hostname := .error ("lookup failed") }
        ("/var/log/traefik.log") initState).2 =
      some { bucket := "voltage-prod-system",
             key := "traefik-logs/unknown/traefik.log",
             quitSignals := 0 } :=
  uploadLogs_destination
    { voltEnvironment := some ("prod"), hostname := .error ("lookup failed") }
    ("prod") ("/var/log/traefik.log") initState rfl (by decide)

/-! Equation lemmas for OpenFile, used by the frame-effect claims. -/

theorem openFile_eq_fail (p e : String) (s : PkgState)
    (h : s.os.openFails p = some e) :
    OpenFile p s = (.error e, { s with logFilePath := p, logFile := none }) := by
  simp [OpenFile, osOpenFile, h]

theorem openFile_eq_ok (p : String) (s : PkgState)
    (h : s.os.openFails p = none) :
    OpenFile p s = (.ok (),
      { s with
        logFilePath := p,
        logFile := some { id := s.os.nextId, path := p },
        sink := Sink.multi { id := s.os.nextId, path := p },
        os := { s.os with
                nextId := s.os.nextId + 1,
                openHandles := { id := s.os.nextId, path := p } :: s.os.openHandles },
        trace := s.trace ++ [FileOp.opened { id := s.os.nextId, path := p }] }) := by
  simp [OpenFile, osOpenFile, SetOutput, h]

/-- The environment under which UploadLogs starts its background task in the
scenario of the cancellation claim. -/
def envC1 : GoEnv :=
  { voltEnvironment := some ("prod"), hostname := .ok ("node-1") }

/-- The background task UploadLogs starts under envC1: fixed bucket and key,
and zero available quit signals, because the quit channel is never sent on,
closed, or handed to the caller. -/
def taskC1 : BgTask :=
  { bucket := "voltage-prod-system",
    key := "traefik-logs/node-1/traefik.log",
    quitSignals := 0 }

/-- C1 fails on the code: UploadLogs starts the background task, but the quit
channel is a local variable never sent on, closed, or returned to the
starter, so no admissible trace of loop events delivers a quit; along every
admissible trace the ticker is never stopped and the goroutine never returns,
contradicting the claimed externally available cancellation that stops the
ticker and leaves no background task running. -/
theorem uploadLogs_no_cancellation (es : List LoopEvent)
    (h : admissibleTrace taskC1 es) :
    (UploadLogs envC1 ("/var/log/traefik.log") initState).2 = some taskC1 ∧
    (loopRun taskC1 es).tickerStopped = false ∧
    (loopRun taskC1 es).returned = false := by
  have hlen : (es.filter LoopEvent.isQuit).length ≤ 0 := h
  have hnil : es.filter LoopEvent.isQuit = [] :=
    List.length_eq_zero.mp (Nat.le_zero.mp hlen)
  have hq : ∀ e ∈ es, LoopEvent.isQuit e = false := by
    intro e he
    cases hval : LoopEvent.isQuit e with
    | false => rfl
    | true =>
      have hmem : e ∈ es.filter LoopEvent.isQuit :=
        List.mem_filter.mpr ⟨he, hval⟩
      rw [hnil] at hmem
      cases hmem
  exact ⟨rfl, loopFold_no_quit taskC1 es initLoop hq rfl rfl⟩

/-- Witness for uploadLogs_no_cancellation: a concrete admissible trace of
two ticks (one successful, one with a failed open); the task is running and
the ticker unstopped afterwards. -/
theorem uploadLogs_no_cancellation_witness :
    (UploadLogs envC1 ("/var/log/traefik.log") initState).2 = some taskC1 ∧
    (loopRun taskC1
      [LoopEvent.tick (.ok { id := 0, path := "/var/log/traefik.log" }) (.ok ()),
       LoopEvent.tick (.error ("open failed")) (.ok ())]).tickerStopped = false ∧
    (loopRun taskC1
      [LoopEvent.tick (.ok { id := 0, path := "/var/log/traefik.log" }) (.ok ()),
       LoopEvent.tick (.error ("open failed")) (.ok ())]).returned = false :=
  uploadLogs_no_cancellation
    [LoopEvent.tick (.ok { id := 0, path := "/var/log/traefik.log" }) (.ok ()),
     LoopEvent.tick (.error ("open failed")) (.ok ())]
    (by simp [admissibleTrace, LoopEvent.isQuit])

/-- C10: in any state with a handle already stored, OpenFile performs no
close (at most one open is traced), leaves the previous handle registered
open at the os level, and overwrites the stored handle with the newly opened
one or with none on failure, so the previous handle is no longer reachable
through the package state; RotateFile on the same state is what closes the
superseded handle, tracing exactly one close of it via its deferred close. -/
theorem superseded_handle_discipline (p : String) (s : PkgState)
    (h0 : FileHandle) (hh : s.logFile = some h0)
    (hopen : h0 ∈ s.os.openHandles) (hfresh : h0.id < s.os.nextId) :
    ((OpenFile p s).2.trace = s.trace ∨
      (OpenFile p s).2.trace =
        s.trace ++ [FileOp.opened { id := s.os.nextId, path := p }]) ∧
    h0 ∈ (OpenFile p s).2.os.openHandles ∧
    (OpenFile p s).2.logFile ≠ some h0 ∧
    ((OpenFile p s).2.logFile = none ∨
      (OpenFile p s).2.logFile = some { id := s.os.nextId, path := p }) ∧
    (∃ tr : List FileOp, (RotateFile s).2.trace = s.trace ++ tr ∧
      tr.filter FileOp.isClose = [FileOp.closed h0]) := by
  have hb : FromContext s (some Background) = .ok s.mainLogger :=
    fromContext_some_eq s Background
  refine ⟨?_, ?_, ?_, ?_, ?_⟩
  · cases hof : s.os.openFails p with
    | some e => exact Or.inl (by rw [openFile_eq_fail p e s hof])
    | none => exact Or.inr (by rw [openFile_eq_ok p s hof])
  · cases hof : s.os.openFails p with
    | some e =>
      rw [openFile_eq_fail p e s hof]
      exact hopen
    | none =>
      rw [openFile_eq_ok p s hof]
      exact List.mem_cons_of_mem _ hopen
  · cases hof : s.os.openFails p with
    | some e =>
      rw [openFile_eq_fail p e s hof]
      simp
    | none =>
      rw [openFile_eq_ok p s hof]
      intro heq
      have hids := congrArg FileHandle.id (Option.some.inj heq)
      simp only at hids
      omega
  · cases hof : s.os.openFails p with
    | some e => exact Or.inl (by rw [openFile_eq_fail p e s hof])
    | none => exact Or.inr (by rw [openFile_eq_ok p s hof])
  · cases hof : s.os.openFails s.logFilePath with
    | some e =>
      refine ⟨[FileOp.closed h0], ?_, by simp [FileOp.isClose]⟩
      simp [RotateFile, hb, hh, openFile_eq_fail s.logFilePath e s hof,
        osClose, hopen]
    | none =>
      refine ⟨[FileOp.opened { id := s.os.nextId, path := s.logFilePath },
        FileOp.closed h0], ?_, by simp [FileOp.isClose]⟩
      simp [RotateFile, hb, hh, openFile_eq_ok s.logFilePath s hof,
        osClose, List.mem_cons, hopen]

/-- The always-open superseded handle of the concrete C10 scenario. -/
def handleC10 : FileHandle :=
  { id := 0, path := "/var/log/traefik.log" }

/-- A state in which handleC10 is the stored open log file handle. -/
def stateC10 : PkgState :=
  { mainLogger := { fields := [] },
    logFilePath := "/var/log/traefik.log",
    logFile := some handleC10,
    sink := Sink.multi handleC10,
    os := { nextId := 1,
            openHandles := [handleC10],
            openFails := fun _ => none },
    trace := [FileOp.opened handleC10],
    output := [] }

/-- Witness for superseded_handle_discipline at the concrete stateC10. -/
theorem superseded_handle_discipline_witness :
    ((OpenFile ("/var/log/traefik.log") stateC10).2.trace = stateC10.trace ∨
      (OpenFile ("/var/log/traefik.log") stateC10).2.trace =
        stateC10.trace ++
          [FileOp.opened { id := stateC10.os.nextId, path := "/var/log/traefik.log" }]) ∧
    handleC10 ∈ (OpenFile ("/var/log/traefik.log") stateC10).2.os.openHandles ∧
    (OpenFile ("/var/log/traefik.log") stateC10).2.logFile ≠ some handleC10 ∧
    ((OpenFile ("/var/log/traefik.log") stateC10).2.logFile = none ∨
      (OpenFile ("/var/log/traefik.log") stateC10).2.logFile =
        some { id := stateC10.os.nextId, path := "/var/log/traefik.log" }) ∧
    (∃ tr : List FileOp, (RotateFile stateC10).2.trace = stateC10.trace ++ tr ∧
      tr.filter FileOp.isClose = [FileOp.closed handleC10]) :=
  superseded_handle_discipline ("/var/log/traefik.log") stateC10 handleC10
    rfl (by decide) (by decide)

end TraefikLog
